import Mathlib

/-!
Shallow embedding of the TRV (thermostatic radiator valve) heat controller
of `apps/heat_ctrl/heat_ctrl.py`, together with the pure decorator logic of
`apps/common/decorators.py` that guards its handlers.

Modelling conventions:
* Python floats are modelled as exact rationals (`ℚ`); every numeric literal
  appearing in the program (24.0, 6.0, 0.5, 0.1, ...) is exactly representable.
* Python's stringly-typed sensor values are kept as `String`; `float(s)` is
  modelled by `parseFloat`, a parser for the plain signed decimal literals
  this system exchanges (other forms Python would accept, such as exponent
  notation, never occur here and map to `none` = `ValueError`).
* Side effects (`call_service`, `run_in`, notifications, listener toggles)
  are recorded as a trace of `Event`s; a raised Python exception is the
  `Option String` error component of a handler's result (state mutations
  performed before the raise are kept, as in Python).
* A handler's call of the commander `set_trv_setpoint` is recorded as the
  trace event `Event.setCmd v` (this mirrors the repository's own test suite,
  which mocks `set_trv_setpoint` and asserts on its invocations); the body of
  `set_trv_setpoint` itself is modelled separately and verified on its own.
-/

namespace HeatCtrl

/-- The fixed week order used by `is_day_in_range`
(`weekdays = ['mon', 'tue', 'wed', 'thu', 'fri', 'sat', 'sun']`). -/
def weekdays : List String := ["mon", "tue", "wed", "thu", "fri", "sat", "sun"]

/-- `weekdays.index(d)` with the `ValueError` modelled as `none`. -/
def dayIndex (d : String) : Option Nat :=
  weekdays.indexOf? d

/-- Structural splitting of a character list at a separator character
(used instead of `String.splitOn` so that proofs can evaluate it). -/
def splitChar (sep : Char) : List Char → List (List Char)
  | [] => [[]]
  | c :: cs =>
    let rest := splitChar sep cs
    if c = sep then
      [] :: rest
    else
      match rest with
      | [] => [[c]]
      | r :: rs => (c :: r) :: rs

/-- `day_range.split('_')` on strings. -/
def splitUnderscore (s : String) : List String :=
  (splitChar '_' s.data).map fun cs => { data := cs }

/-- `HeatControl.is_day_in_range` (heat_ctrl.py lines 106-133).
Returns the boolean result together with a flag recording whether a
warning-class diagnostic was logged (`self.log(..., level="WARNING")`);
the Python `try/except ValueError` around `weekdays.index` is modelled by
matching on `dayIndex = none`, so no exception escapes. -/
def is_day_in_range (day_range : String) (current_day : String) : Bool × Bool :=
  match dayIndex current_day with
  | none => (false, true)
  | some current_day_index =>
    let parts := splitUnderscore day_range
    let start_day := parts.headD ""
    let end_day := parts.getLastD ""
    match dayIndex start_day, dayIndex end_day with
    | some start_index, some end_index =>
      if start_index ≤ end_index then
        (decide (start_index ≤ current_day_index ∧ current_day_index ≤ end_index), false)
      else
        (decide (current_day_index ≥ start_index ∨ current_day_index ≤ end_index), false)
    | _, _ => (false, true)

/-- The spec's membership formula for a day range, stated on ordinal
indices exactly as §4.1 words it: standard range when `si ≤ ei`,
wraparound disjunction when `si > ei`. -/
def dayRangeSpec (si ei ci : Nat) : Bool :=
  if si ≤ ei then decide (si ≤ ci ∧ ci ≤ ei)
  else decide (ci ≥ si ∨ ci ≤ ei)

example : is_day_in_range "tue_fri" "wed" = (true, false) := by decide
example : is_day_in_range "sat_tue" "mon" = (true, false) := by decide
example : is_day_in_range "sat_tue" "wed" = (false, false) := by decide
example : is_day_in_range "foo_bar" "mon" = (false, true) := by decide
example : is_day_in_range "mon_fri" "baz" = (false, true) := by decide
example : is_day_in_range "mon" "mon" = (true, false) := by decide

/-! ### Python `float()` on the decimal literals this system exchanges -/

/-- Digit-string value, `none` if empty or any non-digit character. -/
def digitsVal : List Char → Option Nat
  | [] => none
  | cs =>
    cs.foldl
      (fun acc c =>
        acc.bind fun n => if c.isDigit then some (n * 10 + (c.toNat - 48)) else none)
      (some 0)

/-- `float(s)` for plain signed decimal literals (`"24"`, `"20.5"`, `"-1.25"`);
everything else — in particular `"unavailable"` — is `none`, modelling the
`ValueError` Python raises. -/
def parseFloat (s : String) : Option ℚ :=
  let signed : List Char → Option ℚ := fun cs =>
    match splitChar '.' cs with
    | [intPart] => (digitsVal intPart).map fun n => (n : ℚ)
    | [intPart, fracPart] =>
      (digitsVal intPart).bind fun n =>
        (digitsVal fracPart).map fun f =>
          (n : ℚ) + (f : ℚ) / ((10 : ℚ) ^ fracPart.length)
    | _ => none
  match s.data with
  | '-' :: rest => (signed rest).map Neg.neg
  | cs => signed cs

example : parseFloat "24.0" = some ((24 : ℚ) + 0 / 10 ^ 1) := rfl
example : parseFloat "unavailable" = none := by decide
example : parseFloat "6" = some 6 := by decide
example : parseFloat "21" = some 21 := by decide

/-! ### Data model: configuration, controller state, event trace -/

/-- One entry of `self.trv_configs` as built by `extract_config`
(lines 27-32): the device's entity id and its setpoint attribute. -/
structure TrvCfg where
  entity_id : String
  attr : String
deriving DecidableEq, Repr

/-- A schedule entry `"start,end,setpoint"` after `entry.split(",")`
(line 94), kept pre-split as the three component strings. -/
structure Entry where
  startT : String
  endT : String
  setp : String
deriving DecidableEq, Repr

/-- Immutable configuration extracted from `apps.yaml` by `extract_config`
(lines 9-32).  `periods` is the ordered `dict` of day-range key to entry
list; `retry_count_init` is the initial `self.retry_count` (default 3),
immediately overwritten with 0 by any command. -/
structure Config where
  periods : List (String × List Entry)
  location : String
  retry_count_init : Nat
  max_retries : Nat
  setpoint_on : ℚ
  setpoint_off : ℚ
  temp_tol_min : ℚ
  temp_tol_max : ℚ
  notifier : String
  window_sensor : Option String
  trv_configs : List TrvCfg
deriving DecidableEq, Repr

/-- Mutable attributes of the `HeatControl` instance.  `trv_entities`
is `none` as long as the attribute was never assigned (no method of the
class ever assigns it): reading it then raises `AttributeError`. -/
structure HCState where
  active : Bool
  retry_count : Nat
  expected_setpoint : Option ℚ
  trv_entities : Option (List String)
deriving DecidableEq, Repr

/-- Per-device verification diagnostics collected by `verify_trv_setpoint`
(lines 209-216): a failed read names the device; an out-of-tolerance value
names the device with the expected and last-seen setpoints. -/
inductive ErrMsg where
  | readFail (entity_id : String)
  | mismatch (entity_id : String) (expected : ℚ) (got : ℚ)
deriving DecidableEq, Repr

/-- Observable side effects, in program order. -/
inductive Event where
  /-- `self.call_service("climate/set_temperature", entity_id=e, temperature=t)` -/
  | callService (entity_id : String) (temperature : ℚ)
  /-- `self.run_in(lambda x: None, 1)` — the inter-write "sleep" -/
  | runInNoop (delay : Nat)
  /-- `self.run_in(self.verify_trv_setpoint, 6)` -/
  | runInVerify (delay : Nat)
  /-- one execution of the delayed `verify_trv_setpoint` callback -/
  | checkRun
  /-- `send_ha_notification` → `self.call_service(self.notifier, title=…, message=…)` -/
  | notifySvc (notifier : String) (location : String) (expected : ℚ)
      (max_retries : Nat) (msgs : List ErrMsg)
  /-- a handler invoked the commander `self.set_trv_setpoint(v)` -/
  | setCmd (v : ℚ)
  /-- `self.activate_listener()` inside `control_trv` -/
  | activate
  /-- `self.suspend_listener()` -/
  | suspendEv
  /-- a `self.log(..., level="WARNING")` diagnostic -/
  | warn
deriving DecidableEq, Repr

/-- The instance attributes as `initialize` (lines 35-59) leaves them:
listening is active, `retry_count` holds its configured default,
`expected_setpoint` and `trv_entities` were never assigned. -/
def initializeHC (cfg : Config) : HCState :=
  { active := true
    retry_count := cfg.retry_count_init
    expected_setpoint := none
    trv_entities := none }

/-! ### SetpointCommander: `set_trv_setpoint` (lines 183-197) -/

/-- The per-device write loop of `set_trv_setpoint` (lines 191-196):
a `climate/set_temperature` call per entity, with a 1-second no-op
`run_in` between consecutive writes (not after the last). -/
def writeLoop (setpoint : ℚ) : List String → List Event
  | [] => []
  | [e] => [Event.callService e setpoint]
  | e :: e2 :: rest =>
    Event.callService e setpoint :: Event.runInNoop 1 :: writeLoop setpoint (e2 :: rest)

/-- `HeatControl.set_trv_setpoint` (lines 183-197).  Guard: the body runs
only `if not self.active`.  It then sets `retry_count = 0` and
`expected_setpoint`, iterates `self.trv_entities` — an attribute no method
of the class ever assigns, so when it is unset the loop header raises
`AttributeError` (after the two assignments) — and finally schedules one
verification check 6 seconds out.  Result: new state, event trace, and
the exception if one was raised. -/
def set_trv_setpoint (st : HCState) (setpoint : ℚ) :
    HCState × List Event × Option String :=
  if st.active then (st, [], none)
  else
    let st1 : HCState := { st with retry_count := 0, expected_setpoint := some setpoint }
    match st.trv_entities with
    | none =>
      (st1, [], some "AttributeError: HeatControl object has no attribute trv_entities")
    | some entities =>
      (st1, writeLoop setpoint entities ++ [Event.runInVerify 6], none)

/-! ### ScheduleResolver: the loop of `on_temperature_change` (lines 91-102) -/

/-- The period loop of `on_temperature_change`: iterate the configured
day-range keys in order; for a key whose day range contains today, scan
its entries in order and return on the first whose time window contains
now; a day-matching key none of whose windows matches does NOT stop the
loop — iteration continues with the next key. -/
def resolvePeriods (today : String) (nb : String → String → Bool) :
    List (String × List Entry) → Option (String × Entry)
  | [] => none
  | (period_name, entries) :: rest =>
    if (is_day_in_range period_name today).1 then
      match entries.find? (fun e => nb e.startT e.endT) with
      | some e => some (period_name, e)
      | none => resolvePeriods today nb rest
    else
      resolvePeriods today nb rest

/-- Resolution as the amended claim words it: the first (key, window)
pair, in configured order over the flattened list of pairs, whose day
range contains today and whose time window contains now. -/
def resolveFirstPair (today : String) (nb : String → String → Bool)
    (periods : List (String × List Entry)) : Option (String × Entry) :=
  (periods.flatMap fun p => p.2.map fun e => (p.1, e)).find?
    fun pe => (is_day_in_range pe.1 today).1 && nb pe.2.startT pe.2.endT

/-! ### Commit logic: `control_trv` (lines 149-180) -/

/-- `self.window_sensor and self.get_state(self.window_sensor) == "on"`
(line 162): an unconfigured sensor (`None`, falsy) short-circuits to
false. -/
def windowIsOpen (cfg : Config) (getWindow : String → String) : Bool :=
  match cfg.window_sensor with
  | none => false
  | some w => getWindow w == "on"

/-- The hysteresis block of `control_trv` (lines 155-180) on the three
converted values: strict comparison of the current temperature against
`target - temp_tol_min` and `target + temp_tol_max`, commanding a mode
only when the device is at a known mode and not already at the demanded
one; every non-commanding branch reactivates the listener. -/
def hysteresisEvents (cfg : Config)
    (current_setpoint target_temp current_temp : ℚ) : List Event :=
  let lower_bound := target_temp - cfg.temp_tol_min
  let upper_bound := target_temp + cfg.temp_tol_max
  if current_setpoint = cfg.setpoint_on ∨ current_setpoint = cfg.setpoint_off then
    if current_temp < lower_bound ∧ current_setpoint ≠ cfg.setpoint_on then
      [Event.setCmd cfg.setpoint_on]
    else if current_temp > upper_bound ∧ current_setpoint ≠ cfg.setpoint_off then
      [Event.setCmd cfg.setpoint_off]
    else
      [Event.activate]
  else
    [Event.activate]

/-- `HeatControl.control_trv` (lines 149-180) given the string already
read from the first TRV (`get_trv_setpoint`), the target and the current
temperature.  The three leading `float(...)` conversions raise
`ValueError` on unparseable input (modelled as the error component, with
no events).  The window branch (lines 161-168) lacks a `return` after its
`set_trv_setpoint(setpoint_off)` call, so after that write control falls
through into the hysteresis block; only the already-off branch returns. -/
def control_trv (cfg : Config) (getWindow : String → String)
    (setpointStr targetStr currentStr : String) : List Event × Option String :=
  match parseFloat setpointStr with
  | none => ([], some "ValueError: could not convert TRV setpoint to float")
  | some current_setpoint =>
  match parseFloat targetStr with
  | none => ([], some "ValueError: could not convert target_temp to float")
  | some target_temp =>
  match parseFloat currentStr with
  | none => ([], some "ValueError: could not convert current_temp to float")
  | some current_temp =>
    if windowIsOpen cfg getWindow then
      if current_setpoint ≠ cfg.setpoint_off then
        (Event.setCmd cfg.setpoint_off
           :: hysteresisEvents cfg current_setpoint target_temp current_temp, none)
      else
        ([Event.activate], none)
    else
      (hysteresisEvents cfg current_setpoint target_temp current_temp, none)

/-- `HeatControl.get_trv_setpoint` (lines 238-240): the state of the
FIRST configured TRV only; `trv_configs[0]` on an empty list raises
`IndexError` (modelled as `none`). -/
def get_trv_setpoint (cfg : Config) (reads : String → String → String) :
    Option String :=
  match cfg.trv_configs with
  | [] => none
  | trv :: _ => some (reads trv.entity_id trv.attr)

/-- `control_trv` including its own read of the current setpoint via
`get_trv_setpoint` (line 151). -/
def control_trv_full (cfg : Config) (getWindow : String → String)
    (reads : String → String → String) (targetStr currentStr : String) :
    List Event × Option String :=
  match get_trv_setpoint cfg reads with
  | none => ([], some "IndexError: trv_configs is empty")
  | some s => control_trv cfg getWindow s targetStr currentStr

/-! ### Event handlers (guarded by `requires_active_listener`) -/

/-- `HeatControl.on_trv_setpoint_change` (lines 71-82).  Skipped entirely
while suspended (`requires_active_listener`).  `float(new)` may raise; a
new value that is neither known mode suspends, then restores `float(old)`
if that is a known mode, else commands `setpoint_off`; `float(old)` may
itself raise (after the suspension already happened). -/
def on_trv_setpoint_change (cfg : Config) (st : HCState) (old new : String) :
    HCState × List Event × Option String :=
  if !st.active then (st, [], none)
  else
    match parseFloat new with
    | none => (st, [], some "ValueError: could not convert new to float")
    | some n =>
      if n = cfg.setpoint_on ∨ n = cfg.setpoint_off then (st, [], none)
      else
        let st1 : HCState := { st with active := false }
        match parseFloat old with
        | none => (st1, [Event.suspendEv], some "ValueError: could not convert old to float")
        | some o =>
          if o = cfg.setpoint_on ∨ o = cfg.setpoint_off then
            (st1, [Event.suspendEv, Event.setCmd o], none)
          else
            (st1, [Event.suspendEv, Event.setCmd cfg.setpoint_off], none)

/-- `HeatControl.on_temperature_change` (lines 84-104).  Skipped while
suspended; an `"unavailable"` reading is logged and the handler returns;
otherwise the schedule is resolved and, on a match, the listener is
suspended and `control_trv(setpoint, new)` runs (whose `ValueError`s
propagate out of the handler). -/
def on_temperature_change (cfg : Config) (st : HCState) (today : String)
    (nb : String → String → Bool) (getWindow : String → String)
    (reads : String → String → String) (new : String) :
    HCState × List Event × Option String :=
  if !st.active then (st, [], none)
  else if new = "unavailable" then (st, [], none)
  else
    match resolvePeriods today nb cfg.periods with
    | none => (st, [], none)
    | some (_, e) =>
      let st1 : HCState := { st with active := false }
      let r := control_trv_full cfg getWindow reads e.setp new
      (st1, Event.suspendEv :: r.1, r.2)

/-- `HeatControl.on_window_change` (lines 135-146).  Skipped while
suspended; `"on"` suspends and commands `setpoint_off`; `"off"` only
logs (no command); anything else logs a warning.  No conversion, so no
exception. -/
def on_window_change (cfg : Config) (st : HCState) (new : String) :
    HCState × List Event × Option String :=
  if !st.active then (st, [], none)
  else if new = "on" then
    ({ st with active := false }, [Event.suspendEv, Event.setCmd cfg.setpoint_off], none)
  else if new = "off" then (st, [], none)
  else (st, [Event.warn], none)

/-! ### Verification state machine: `verify_trv_setpoint` (lines 199-229) -/

/-- The per-device read-and-compare loop (lines 204-216).  `reads e a`
is `float(get_state(e, a))` with the `try/except (ValueError, TypeError)`
folded in: `none` models a failed or unparseable read.  One diagnostic is
collected per failing device, in device order; `all_setpoints_correct`
is false exactly when this list is nonempty. -/
def verifyDevices (cfg : Config) (expected : ℚ)
    (reads : String → String → Option ℚ) : List ErrMsg :=
  cfg.trv_configs.filterMap fun trv =>
    match reads trv.entity_id trv.attr with
    | none => some (ErrMsg.readFail trv.entity_id)
    | some current =>
      if |current - expected| ≥ 1 / 10 then
        some (ErrMsg.mismatch trv.entity_id expected current)
      else
        none

/-- Result of one execution of the `verify_trv_setpoint` callback:
successor state, events, whether another check was re-scheduled, and a
raised exception if any. -/
structure VStep where
  st : HCState
  events : List Event
  resched : Bool
  err : Option String
deriving DecidableEq, Repr

/-- One execution of `HeatControl.verify_trv_setpoint` (lines 199-229).
Reading `self.expected_setpoint` before any command ever set it would
raise `AttributeError`; otherwise: all devices in tolerance → reactivate;
some failure with `retry_count + 1 < max_retries` → increment and
re-schedule another check in 6 s (re-poll only — the body contains no
`call_service("climate/set_temperature", ...)`); retry budget exhausted →
notify (listing every failed device) and reactivate. -/
def verify_trv_setpoint (cfg : Config) (st : HCState)
    (reads : String → String → Option ℚ) : VStep :=
  match st.expected_setpoint with
  | none =>
    ⟨st, [Event.checkRun], false,
     some "AttributeError: HeatControl object has no attribute expected_setpoint"⟩
  | some expected =>
    let msgs := verifyDevices cfg expected reads
    if msgs.isEmpty then
      ⟨{ st with active := true }, [Event.checkRun], false, none⟩
    else
      let st1 : HCState := { st with retry_count := st.retry_count + 1 }
      if st1.retry_count < cfg.max_retries then
        ⟨st1, [Event.checkRun, Event.runInVerify 6], true, none⟩
      else
        ⟨{ st1 with active := true },
         [Event.checkRun,
          Event.notifySvc cfg.notifier cfg.location expected cfg.max_retries msgs],
         false, none⟩

/-- The chain of delayed verification callbacks: `reads k` is what the
platform returns at the k-th check; recursion is fuelled (each re-schedule
consumes one unit), which suffices since the retry budget is finite. -/
def runVerify (cfg : Config) (reads : Nat → String → String → Option ℚ) :
    Nat → Nat → HCState → HCState × List Event
  | 0, _, st => (st, [])
  | fuel + 1, k, st =>
    let s := verify_trv_setpoint cfg st (reads k)
    if s.resched then
      let rest := runVerify cfg reads fuel (k + 1) s.st
      (rest.1, s.events ++ rest.2)
    else
      (s.st, s.events)

/-- The expected event trace of a verification chain in which every
check fails: `n` checks starting at index `k`, a re-schedule after each
non-final one, and the failure notification (carrying the diagnostics of
the last check) at the end. -/
def failTrace (cfg : Config) (expected : ℚ)
    (reads : Nat → String → String → Option ℚ) : Nat → Nat → List Event
  | 0, _ => []
  | 1, k =>
    [Event.checkRun,
     Event.notifySvc cfg.notifier cfg.location expected cfg.max_retries
       (verifyDevices cfg expected (reads k))]
  | n + 2, k =>
    Event.checkRun :: Event.runInVerify 6
      :: failTrace cfg expected reads (n + 1) (k + 1)

/-- Number of executions of the verification callback in a trace. -/
def countChecks (evs : List Event) : Nat :=
  evs.countP fun e =>
    match e with
    | Event.checkRun => true
    | _ => false

/-- Number of failure notifications in a trace. -/
def countNotifies (evs : List Event) : Nat :=
  evs.countP fun e =>
    match e with
    | Event.notifySvc _ _ _ _ _ => true
    | _ => false

/-- Device-command events: a direct `climate/set_temperature` call or a
handler-level invocation of the commander. -/
def isDeviceCmd (e : Event) : Bool :=
  match e with
  | Event.callService _ _ => true
  | Event.setCmd _ => true
  | _ => false

/-- Number of device commands in a trace. -/
def countDeviceCmds (evs : List Event) : Nat :=
  evs.countP isDeviceCmd

/-! ### Concrete fixture: one zone configured as in the repository's
own test suite (schedule and thresholds of `test_heat_ctrl.py`) with two
valves. -/

def cfgHome : Config :=
  { periods :=
      [("mon", [⟨"05:00:00", "08:00:00", "19"⟩]),
       ("tue_fri",
        [⟨"09:00:00", "13:00:00", "19"⟩, ⟨"14:00:00", "20:00:00", "20.5"⟩])]
    location := "kitchen"
    retry_count_init := 3
    max_retries := 3
    setpoint_on := 24
    setpoint_off := 6
    temp_tol_min := 1 / 2
    temp_tol_max := 1 / 2
    notifier := "notify/notify"
    window_sensor := some "binary_sensor.window"
    trv_configs :=
      [⟨"climate.trv_a", "temperature"⟩, ⟨"climate.trv_b", "temperature"⟩] }

/-- The fixture state right after startup: what `initialize` leaves. -/
def stStart : HCState := initializeHC cfgHome

/-- The fixture state while suspended mid-cycle (a caller ran
`suspend_listener`); `trv_entities` still never assigned. -/
def stSusp : HCState := { stStart with active := false }

/-- A suspended state in which the `trv_entities` attribute HAS been
given a value (something no method of the class ever does; this isolates
the commander's guard and write loop from the missing-attribute bug). -/
def stSuspWithEntities : HCState :=
  { stSusp with trv_entities := some ["climate.trv_a", "climate.trv_b"] }

/-- A suspended mid-verification state: a command for 24 °C was issued
and two failed checks have already happened. -/
def stMidVerify : HCState :=
  { active := false, retry_count := 2, expected_setpoint := some 24,
    trv_entities := none }

/-- The state right after a command for 24 °C was issued: suspended,
`retry_count` reset to 0, expected setpoint recorded. -/
def stVerifyStart : HCState :=
  { active := false, retry_count := 0, expected_setpoint := some 24,
    trv_entities := none }

/-- Platform reads during verification that always fail (device
unavailable / unparseable at every check). -/
def readsNone : Nat → String → String → Option ℚ := fun _ _ _ => none

/-- A window read that always reports "closed". -/
def gwOff : String → String := fun _ => "off"

/-- A window read that always reports "open". -/
def gwOn : String → String := fun _ => "on"

/-! ## Helper lemmas (shared across claims) -/

/-- `control_trv` once all three `float(...)` conversions succeed,
expressed by branch. -/
theorem control_trv_parsed (cfg : Config) (gw : String → String)
    (sps ts cs : String) (vs vt vc : ℚ)
    (h1 : parseFloat sps = some vs) (h2 : parseFloat ts = some vt)
    (h3 : parseFloat cs = some vc) :
    control_trv cfg gw sps ts cs
      = if windowIsOpen cfg gw then
          if vs ≠ cfg.setpoint_off then
            (Event.setCmd cfg.setpoint_off :: hysteresisEvents cfg vs vt vc, none)
          else
            ([Event.activate], none)
        else
          (hysteresisEvents cfg vs vt vc, none) := by
  simp only [control_trv, h1, h2, h3]

/-- The hysteresis block with its two bound-`let`s zeta-reduced, for
rewriting. -/
theorem hysteresisEvents_eq (cfg : Config) (vs vt vc : ℚ) :
    hysteresisEvents cfg vs vt vc
      = if vs = cfg.setpoint_on ∨ vs = cfg.setpoint_off then
          if vc < vt - cfg.temp_tol_min ∧ vs ≠ cfg.setpoint_on then
            [Event.setCmd cfg.setpoint_on]
          else if vc > vt + cfg.temp_tol_max ∧ vs ≠ cfg.setpoint_off then
            [Event.setCmd cfg.setpoint_off]
          else
            [Event.activate]
        else
          [Event.activate] := rfl

/-- The hysteresis block never commands `setpoint_on` when the device is
not currently at `setpoint_off`: commanding on requires a known mode
that is not `setpoint_on`, i.e. exactly `setpoint_off`. -/
theorem hysteresis_no_on (cfg : Config) (vs vt vc : ℚ)
    (hvs : vs ≠ cfg.setpoint_off) (hne : cfg.setpoint_on ≠ cfg.setpoint_off) :
    Event.setCmd cfg.setpoint_on ∉ hysteresisEvents cfg vs vt vc := by
  simp only [hysteresisEvents]
  split_ifs with hmode hlow hhigh
  · rcases hmode with h | h
    · exact (hlow.2 h).elim
    · exact (hvs h).elim
  · simp only [List.mem_singleton, Event.setCmd.injEq]
    exact hne
  · simp
  · simp

/-- One failing verification step with retry budget left: increment and
re-schedule, nothing else. -/
theorem verify_step_retry (cfg : Config) (st : HCState)
    (reads : String → String → Option ℚ) (exp : ℚ)
    (hexp : st.expected_setpoint = some exp)
    (hfail : verifyDevices cfg exp reads ≠ [])
    (hlt : st.retry_count + 1 < cfg.max_retries) :
    verify_trv_setpoint cfg st reads
      = ⟨{ st with retry_count := st.retry_count + 1 },
         [Event.checkRun, Event.runInVerify 6], true, none⟩ := by
  simp [verify_trv_setpoint, hexp, List.isEmpty_iff, hfail, hlt]

/-- One failing verification step with the retry budget exhausted:
notify with the per-device diagnostics of this check and reactivate. -/
theorem verify_step_exhaust (cfg : Config) (st : HCState)
    (reads : String → String → Option ℚ) (exp : ℚ)
    (hexp : st.expected_setpoint = some exp)
    (hfail : verifyDevices cfg exp reads ≠ [])
    (hge : ¬ st.retry_count + 1 < cfg.max_retries) :
    verify_trv_setpoint cfg st reads
      = ⟨{ st with retry_count := st.retry_count + 1, active := true },
         [Event.checkRun,
          Event.notifySvc cfg.notifier cfg.location exp cfg.max_retries
            (verifyDevices cfg exp reads)],
         false, none⟩ := by
  simp [verify_trv_setpoint, hexp, List.isEmpty_iff, hfail, hge]

/-- One-step unfolding of the verification chain. -/
theorem runVerify_succ (cfg : Config) (reads : Nat → String → String → Option ℚ)
    (fuel k : Nat) (st : HCState) :
    runVerify cfg reads (fuel + 1) k st
      = (if (verify_trv_setpoint cfg st (reads k)).resched then
          ((runVerify cfg reads fuel (k + 1) (verify_trv_setpoint cfg st (reads k)).st).1,
           (verify_trv_setpoint cfg st (reads k)).events
             ++ (runVerify cfg reads fuel (k + 1)
                  (verify_trv_setpoint cfg st (reads k)).st).2)
        else
          ((verify_trv_setpoint cfg st (reads k)).st,
           (verify_trv_setpoint cfg st (reads k)).events)) := rfl

/-- A verification chain in which every check fails runs `n` checks
(where `n` is the remaining retry budget), produces exactly the
`failTrace` events, and ends reactivated with `retry_count` equal to
`max_retries`. -/
theorem runVerify_all_fail (cfg : Config)
    (reads : Nat → String → String → Option ℚ) (exp : ℚ)
    (hfail : ∀ j, verifyDevices cfg exp (reads j) ≠ []) :
    ∀ n k st, st.expected_setpoint = some exp →
      st.retry_count + n = cfg.max_retries → 1 ≤ n →
      runVerify cfg reads n k st
        = ({ st with retry_count := cfg.max_retries, active := true },
           failTrace cfg exp reads n k)
  | 0, _, _, _, _, hn => absurd hn (by omega)
  | 1, k, st, hexp, hsum, _ => by
    have hge : ¬ st.retry_count + 1 < cfg.max_retries := by omega
    rw [show (1 : Nat) = 0 + 1 from rfl, runVerify_succ,
      verify_step_exhaust cfg st (reads k) exp hexp (hfail k) hge]
    simp only [failTrace]
    rw [show st.retry_count + 1 = cfg.max_retries from hsum]
    simp
  | n + 2, k, st, hexp, hsum, _ => by
    have hlt : st.retry_count + 1 < cfg.max_retries := by omega
    have ih := runVerify_all_fail cfg reads exp hfail (n + 1) (k + 1)
      { st with retry_count := st.retry_count + 1 }
      (by simpa using hexp) (by simp; omega) (by omega)
    rw [runVerify_succ, verify_step_retry cfg st (reads k) exp hexp (hfail k) hlt]
    simp only [ih, failTrace]
    simp

/-- `failTrace n k` contains exactly `n` check executions. -/
theorem countChecks_failTrace (cfg : Config) (exp : ℚ)
    (reads : Nat → String → String → Option ℚ) :
    ∀ n k, countChecks (failTrace cfg exp reads n k) = n
  | 0, _ => rfl
  | 1, _ => rfl
  | n + 2, k => by
    have ih := countChecks_failTrace cfg exp reads (n + 1) (k + 1)
    simp [failTrace, countChecks, List.countP_cons] at ih ⊢
    omega

/-- `failTrace n k` with `n ≥ 1` contains exactly one notification. -/
theorem countNotifies_failTrace (cfg : Config) (exp : ℚ)
    (reads : Nat → String → String → Option ℚ) :
    ∀ n k, 1 ≤ n → countNotifies (failTrace cfg exp reads n k) = 1
  | 0, _, hn => absurd hn (by omega)
  | 1, _, _ => rfl
  | n + 2, k, _ => by
    have ih := countNotifies_failTrace cfg exp reads (n + 1) (k + 1) (by omega)
    simp [failTrace, countNotifies, List.countP_cons] at ih ⊢
    omega

/-- `failTrace` never contains a device command: the retries re-poll
and never resend. -/
theorem countDeviceCmds_failTrace (cfg : Config) (exp : ℚ)
    (reads : Nat → String → String → Option ℚ) :
    ∀ n k, countDeviceCmds (failTrace cfg exp reads n k) = 0
  | 0, _ => rfl
  | 1, _ => rfl
  | n + 2, k => by
    have ih := countDeviceCmds_failTrace cfg exp reads (n + 1) (k + 1)
    simp [failTrace, countDeviceCmds, List.countP_cons, isDeviceCmd] at ih ⊢
    exact ih

/-- The notification in `failTrace n k` carries the diagnostics of the
LAST check (index `k + n - 1`). -/
theorem notify_mem_failTrace (cfg : Config) (exp : ℚ)
    (reads : Nat → String → String → Option ℚ) :
    ∀ n k, 1 ≤ n →
      Event.notifySvc cfg.notifier cfg.location exp cfg.max_retries
          (verifyDevices cfg exp (reads (k + n - 1)))
        ∈ failTrace cfg exp reads n k
  | 0, _, hn => absurd hn (by omega)
  | 1, k, _ => by simp [failTrace]
  | n + 2, k, _ => by
    have ih := notify_mem_failTrace cfg exp reads (n + 1) (k + 1) (by omega)
    simp only [failTrace, List.mem_cons]
    right; right
    have : k + 1 + (n + 1) - 1 = k + (n + 2) - 1 := by omega
    rwa [this] at ih

/-! ## Claim theorems -/

/-- C7: for every day-range key `start_end` with valid weekday tokens and
every valid current day, membership is the standard inclusive range when
`index(start) ≤ index(end)` and the wraparound disjunction when
`index(start) > index(end)`; a single token behaves as `start = end`; an
invalid token in the key or the current day yields `false` plus a
warning-class diagnostic (and, the `try/except` being total, never an
exception). -/
theorem C7_day_range_matcher :
    (∀ s ∈ weekdays, ∀ e ∈ weekdays, ∀ c ∈ weekdays,
        is_day_in_range (s ++ "_" ++ e) c
          = (dayRangeSpec ((dayIndex s).getD 0) ((dayIndex e).getD 0)
              ((dayIndex c).getD 0), false)
        ∧ is_day_in_range s c
          = (dayRangeSpec ((dayIndex s).getD 0) ((dayIndex s).getD 0)
              ((dayIndex c).getD 0), false))
    ∧ (∀ r c, dayIndex c = none → is_day_in_range r c = (false, true))
    ∧ (∀ r c,
        dayIndex ((splitUnderscore r).head?.getD "") = none ∨
          dayIndex ((splitUnderscore r).getLast?.getD "") = none →
        is_day_in_range r c = (false, true)) := by
  refine ⟨by decide, ?_, ?_⟩
  · intro r c h
    simp [is_day_in_range, h]
  · intro r c h
    cases hcc : dayIndex c with
    | none => simp [is_day_in_range, hcc]
    | some ci =>
      cases hs : dayIndex ((splitUnderscore r).head?.getD "") with
      | none => simp [is_day_in_range, hcc, hs]
      | some si =>
        cases he : dayIndex ((splitUnderscore r).getLast?.getD "") with
        | none => simp [is_day_in_range, hcc, hs, he]
        | some ei => rcases h with h | h <;> simp_all

/-- C1: evaluating the commander at the failing input.  Suspended by a
caller right after startup, `set_trv_setpoint(24.0)` raises
`AttributeError` — the loop header reads `self.trv_entities`, an
attribute no method of the class ever assigns (`extract_config` builds
`self.trv_configs`, which `initialize` and `verify_trv_setpoint` use) —
after resetting `retry_count` and `expected_setpoint`: no
`climate/set_temperature` write is issued for any configured device and
no verification check is scheduled, contradicting the claim. -/
theorem C1_commander_raises_attribute_error :
    set_trv_setpoint stSusp 24
      = ({ active := false, retry_count := 0, expected_setpoint := some 24,
           trv_entities := none },
         [],
         some "AttributeError: HeatControl object has no attribute trv_entities") := by
  rfl

/-- C3 counterexample: with entities present, a setpoint command IS
issued while `active = false` (the commander's own guard is
`if not self.active`), and issuing it leaves `active` at `false` — so
"a setpoint command may only be issued while the controller is active"
and "issuing the command flips active to false" are both false of the
code. -/
theorem C3_counterexample :
    stSuspWithEntities.active = false
    ∧ set_trv_setpoint stSuspWithEntities 24
        = ({ active := false, retry_count := 0, expected_setpoint := some 24,
             trv_entities := some ["climate.trv_a", "climate.trv_b"] },
           [Event.callService "climate.trv_a" 24, Event.runInNoop 1,
            Event.callService "climate.trv_b" 24, Event.runInVerify 6],
           none) := by
  exact ⟨rfl, rfl⟩

/-- C3 amended: `active` is true at startup; a setpoint command is only
issued while the controller is SUSPENDED (the commander's body runs only
`if not self.active`, callers having suspended beforehand) and is a
no-op while active; when it acts it sets `retryCount = 0` and
`expectedSetpoint = target`, leaving `active` false; `active` flips back
to true when verification succeeds, when the retry budget is exhausted,
and also when the commit logic decides no command is needed (its
no-action branch reactivates the listener without any verification
cycle). -/
theorem C3_active_lifecycle :
    (∀ cfg, (initializeHC cfg).active = true)
    ∧ (∀ st v, st.active = true → set_trv_setpoint st v = (st, [], none))
    ∧ (∀ st v es, st.active = false → st.trv_entities = some es →
        set_trv_setpoint st v
          = ({ st with retry_count := 0, expected_setpoint := some v },
             writeLoop v es ++ [Event.runInVerify 6], none))
    ∧ (∀ cfg st reads exp, st.expected_setpoint = some exp →
        verifyDevices cfg exp reads = [] →
        (verify_trv_setpoint cfg st reads).st.active = true)
    ∧ (∀ cfg st reads exp, st.expected_setpoint = some exp →
        verifyDevices cfg exp reads ≠ [] →
        ¬ st.retry_count + 1 < cfg.max_retries →
        (verify_trv_setpoint cfg st reads).st.active = true)
    ∧ (∀ cfg vs vt vc, (vs = cfg.setpoint_on ∨ vs = cfg.setpoint_off) →
        ¬ (vc < vt - cfg.temp_tol_min ∧ vs ≠ cfg.setpoint_on) →
        ¬ (vc > vt + cfg.temp_tol_max ∧ vs ≠ cfg.setpoint_off) →
        hysteresisEvents cfg vs vt vc = [Event.activate]) := by
  refine ⟨fun cfg => rfl, ?_, ?_, ?_, ?_, ?_⟩
  · intro st v h
    simp [set_trv_setpoint, h]
  · intro st v es h1 h2
    simp [set_trv_setpoint, h1, h2]
  · intro cfg st reads exp h1 h2
    simp [verify_trv_setpoint, h1, h2]
  · intro cfg st reads exp h1 h2 h3
    simp [verify_trv_setpoint, h1, List.isEmpty_iff, h2, h3]
  · intro cfg vs vt vc h1 h2 h3
    simp only [hysteresisEvents, if_pos h1, if_neg h2, if_neg h3]

/-- Witness for C3 amended, at concrete inputs: startup state, a no-op
command while active, a real command while suspended, a successful and
an exhausted verification step, and an in-band no-action reactivation. -/
theorem C3_active_lifecycle_witness :
    (initializeHC cfgHome).active = true
    ∧ set_trv_setpoint stStart 24 = (stStart, [], none)
    ∧ set_trv_setpoint stSuspWithEntities 24
        = ({ stSuspWithEntities with retry_count := 0, expected_setpoint := some 24 },
           writeLoop 24 ["climate.trv_a", "climate.trv_b"] ++ [Event.runInVerify 6],
           none)
    ∧ (verify_trv_setpoint cfgHome stMidVerify fun _ _ => some 24).st.active = true
    ∧ (verify_trv_setpoint cfgHome stMidVerify fun _ _ => none).st.active = true
    ∧ hysteresisEvents cfgHome 24 20 19 = [Event.activate] := by
  refine ⟨C3_active_lifecycle.1 cfgHome,
    C3_active_lifecycle.2.1 stStart 24 rfl,
    C3_active_lifecycle.2.2.1 stSuspWithEntities 24 ["climate.trv_a", "climate.trv_b"]
      rfl rfl,
    C3_active_lifecycle.2.2.2.1 cfgHome stMidVerify _ 24 rfl ?_,
    C3_active_lifecycle.2.2.2.2.1 cfgHome stMidVerify _ 24 rfl ?_ ?_,
    C3_active_lifecycle.2.2.2.2.2 cfgHome 24 20 19 (Or.inl rfl) ?_ ?_⟩
  · show verifyDevices cfgHome 24 (fun _ _ => some 24) = []
    simp [verifyDevices, cfgHome]
  · show verifyDevices cfgHome 24 (fun _ _ => none) ≠ []
    decide
  · show ¬ stMidVerify.retry_count + 1 < cfgHome.max_retries
    decide
  · show ¬ ((19 : ℚ) < 20 - cfgHome.temp_tol_min ∧ (24 : ℚ) ≠ cfgHome.setpoint_on)
    simp [cfgHome]
  · show ¬ ((19 : ℚ) > 20 + cfgHome.temp_tol_max ∧ (24 : ℚ) ≠ cfgHome.setpoint_off)
    simp [cfgHome]
    norm_num

/-- C4 counterexample: the first configured key `"mon"` matches the
current day but its window list is empty, and the resolver nevertheless
consults the LATER key `"mon_sun"` and returns its setpoint — under the
claim ("once a day-range key matches the current day, later keys are
never consulted, even if that key's window list contains no window
covering the current time") the result would have been `none`. -/
theorem C4_counterexample :
    (is_day_in_range "mon" "mon").1 = true
    ∧ resolvePeriods "mon" (fun _ _ => true)
        [("mon", []), ("mon_sun", [⟨"00:00:00", "23:59:59", "20"⟩])]
      = some ("mon_sun", ⟨"00:00:00", "23:59:59", "20"⟩) := by
  decide

/-- C4 amended: the resolver returns the setpoint entry of the first
(day-range key, window) pair — in configured order over the flattened
pair list — whose key matches the day AND whose window contains the
time, and `none` when no such pair exists; a day-matching key with no
covering window does not stop the search, so later keys are still
consulted. -/
theorem C4_schedule_resolution (today : String) (nb : String → String → Bool) :
    ∀ periods, resolvePeriods today nb periods = resolveFirstPair today nb periods := by
  intro periods
  induction periods with
  | nil => rfl
  | cons p rest ih =>
    obtain ⟨name, entries⟩ := p
    cases hd : (is_day_in_range name today).1 with
    | true =>
      rw [resolvePeriods, if_pos hd]
      cases hf : entries.find? (fun e => nb e.startT e.endT) with
      | some e =>
        simp only [resolveFirstPair, List.flatMap_cons, List.find?_append,
          List.find?_map]
        simp only [Function.comp_def, hd, Bool.true_and]
        rw [hf]
        rfl
      | none =>
        simp only [resolveFirstPair, List.flatMap_cons, List.find?_append,
          List.find?_map]
        simp only [Function.comp_def, hd, Bool.true_and]
        rw [hf]
        simpa [resolveFirstPair] using ih
    | false =>
      rw [resolvePeriods, if_neg (by simp [hd])]
      simp only [resolveFirstPair, List.flatMap_cons, List.find?_append,
        List.find?_map]
      simp only [Function.comp_def, hd, Bool.false_and]
      have hnone : ∀ l : List Entry, (l.find? fun _ => false) = none :=
        fun l => List.find?_eq_none.mpr fun x _ => by simp
      rw [hnone]
      simpa [resolveFirstPair] using ih

/-- Witness for C7 at concrete inputs: the matcher agrees with the index
formula on `tue_fri` / `wed`, and an invalid current day is a warned
non-match. -/
theorem C7_day_range_matcher_witness :
    (is_day_in_range ("tue" ++ "_" ++ "fri") "wed"
        = (dayRangeSpec ((dayIndex "tue").getD 0) ((dayIndex "fri").getD 0)
            ((dayIndex "wed").getD 0), false))
    ∧ is_day_in_range "mon_fri" "baz" = (false, true) :=
  ⟨(C7_day_range_matcher.1 "tue" (by decide) "fri" (by decide) "wed" (by decide)).1,
   C7_day_range_matcher.2.1 "mon_fri" "baz" (by decide)⟩

/-- C5 counterexample: window closed, current setpoint 24 (= mode on,
one of the two modes), target 20, current temperature 19 — strictly
below `target - toleranceBelow = 19.5` — yet NO `mode=on` command is
issued: the code's extra `current_setpoint != setpoint_on` conjunct
makes the commit logic reactivate the listener instead. -/
theorem C5_counterexample :
    (19 : ℚ) < 20 - cfgHome.temp_tol_min
    ∧ control_trv cfgHome gwOff "24" "20" "19" = ([Event.activate], none) := by
  constructor
  · rw [show cfgHome.temp_tol_min = 1 / 2 from rfl]
    norm_num
  · rw [control_trv_parsed cfgHome gwOff "24" "20" "19" 24 20 19
      (by decide) (by decide) (by decide)]
    rw [if_neg (by decide)]
    norm_num [hysteresisEvents_eq, cfgHome]

/-- C5 amended: with no window open, a parseable reading and the device
at one of the two modes, the commit logic issues `mode=on` exactly once
when the temperature is strictly below `target - toleranceBelow` AND the
device is not already at `setpoint_on` (if already on: no command,
listening resumes); symmetrically `mode=off` exactly once when strictly
above `target + toleranceAbove` and not already off; within
`[lowerBound, upperBound]` no command is issued and listening resumes
immediately.  Comparisons are strict. -/
theorem C5_hysteresis_amended (cfg : Config) (gw : String → String)
    (sps ts cs : String) (vs vt vc : ℚ)
    (h1 : parseFloat sps = some vs) (h2 : parseFloat ts = some vt)
    (h3 : parseFloat cs = some vc)
    (hw : windowIsOpen cfg gw = false)
    (hne : cfg.setpoint_on ≠ cfg.setpoint_off)
    (htmin : 0 ≤ cfg.temp_tol_min) (htmax : 0 ≤ cfg.temp_tol_max) :
    control_trv cfg gw sps ts cs = (hysteresisEvents cfg vs vt vc, none)
    ∧ (vs = cfg.setpoint_off → vc < vt - cfg.temp_tol_min →
        hysteresisEvents cfg vs vt vc = [Event.setCmd cfg.setpoint_on])
    ∧ (vs = cfg.setpoint_on → vc < vt - cfg.temp_tol_min →
        hysteresisEvents cfg vs vt vc = [Event.activate])
    ∧ (vs = cfg.setpoint_on → vc > vt + cfg.temp_tol_max →
        hysteresisEvents cfg vs vt vc = [Event.setCmd cfg.setpoint_off])
    ∧ (vs = cfg.setpoint_off → vc > vt + cfg.temp_tol_max →
        hysteresisEvents cfg vs vt vc = [Event.activate])
    ∧ ((vs = cfg.setpoint_on ∨ vs = cfg.setpoint_off) →
        vt - cfg.temp_tol_min ≤ vc → vc ≤ vt + cfg.temp_tol_max →
        hysteresisEvents cfg vs vt vc = [Event.activate]) := by
  refine ⟨?_, ?_, ?_, ?_, ?_, ?_⟩
  · rw [control_trv_parsed cfg gw sps ts cs vs vt vc h1 h2 h3, if_neg (by simp [hw])]
  · intro hvs hlt
    subst hvs
    have hm : cfg.setpoint_off = cfg.setpoint_on ∨ cfg.setpoint_off = cfg.setpoint_off :=
      Or.inr rfl
    have hc : vc < vt - cfg.temp_tol_min ∧ cfg.setpoint_off ≠ cfg.setpoint_on :=
      ⟨hlt, Ne.symm hne⟩
    rw [hysteresisEvents_eq, if_pos hm, if_pos hc]
  · intro hvs hlt
    subst hvs
    have hm : cfg.setpoint_on = cfg.setpoint_on ∨ cfg.setpoint_on = cfg.setpoint_off :=
      Or.inl rfl
    have hc1 : ¬ (vc < vt - cfg.temp_tol_min ∧ cfg.setpoint_on ≠ cfg.setpoint_on) :=
      fun h => h.2 rfl
    have hc2 : ¬ (vc > vt + cfg.temp_tol_max ∧ cfg.setpoint_on ≠ cfg.setpoint_off) :=
      fun h => absurd h.1 (by linarith)
    rw [hysteresisEvents_eq, if_pos hm, if_neg hc1, if_neg hc2]
  · intro hvs hgt
    subst hvs
    have hm : cfg.setpoint_on = cfg.setpoint_on ∨ cfg.setpoint_on = cfg.setpoint_off :=
      Or.inl rfl
    have hc1 : ¬ (vc < vt - cfg.temp_tol_min ∧ cfg.setpoint_on ≠ cfg.setpoint_on) :=
      fun h => absurd h.1 (by linarith)
    have hc2 : vc > vt + cfg.temp_tol_max ∧ cfg.setpoint_on ≠ cfg.setpoint_off :=
      ⟨hgt, hne⟩
    rw [hysteresisEvents_eq, if_pos hm, if_neg hc1, if_pos hc2]
  · intro hvs hgt
    subst hvs
    have hm : cfg.setpoint_off = cfg.setpoint_on ∨ cfg.setpoint_off = cfg.setpoint_off :=
      Or.inr rfl
    have hc1 : ¬ (vc < vt - cfg.temp_tol_min ∧ cfg.setpoint_off ≠ cfg.setpoint_on) :=
      fun h => absurd h.1 (by linarith)
    have hc2 : ¬ (vc > vt + cfg.temp_tol_max ∧ cfg.setpoint_off ≠ cfg.setpoint_off) :=
      fun h => h.2 rfl
    rw [hysteresisEvents_eq, if_pos hm, if_neg hc1, if_neg hc2]
  · intro hmode hlb hub
    have hc1 : ¬ (vc < vt - cfg.temp_tol_min ∧ vs ≠ cfg.setpoint_on) :=
      fun h => absurd h.1 (by linarith)
    have hc2 : ¬ (vc > vt + cfg.temp_tol_max ∧ vs ≠ cfg.setpoint_off) :=
      fun h => absurd h.1 (by linarith)
    rw [hysteresisEvents_eq, if_pos hmode, if_neg hc1, if_neg hc2]

/-- Witness for C5 amended at concrete inputs: device at `setpoint_off`,
target 20, temperature 19 (below the 19.5 lower bound) — the commit
logic hands the hysteresis result to the caller and that result is a
single `mode=on` command. -/
theorem C5_hysteresis_amended_witness :
    control_trv cfgHome gwOff "6" "20" "19"
      = (hysteresisEvents cfgHome 6 20 19, none)
    ∧ hysteresisEvents cfgHome 6 20 19 = [Event.setCmd cfgHome.setpoint_on] := by
  have h := C5_hysteresis_amended cfgHome gwOff "6" "20" "19" 6 20 19
    (by decide) (by decide) (by decide) (by decide) (by decide)
    (by rw [show cfgHome.temp_tol_min = 1 / 2 from rfl]; norm_num)
    (by rw [show cfgHome.temp_tol_max = 1 / 2 from rfl]; norm_num)
  refine ⟨h.1, h.2.1 rfl ?_⟩
  rw [show cfgHome.temp_tol_min = 1 / 2 from rfl]
  norm_num

/-- C6: for every commit-logic invocation with the configured window
sensor reporting open, mode off is forced — the first action on a device
not already at `setpoint_off` is the `mode=off` command — a `mode=on`
command is never issued, listening resumes when the device is already at
`setpoint_off`, and a window-closed event issues no immediate command. -/
theorem C6_window_open_forces_off :
    (∀ (cfg : Config) (gw : String → String) (sps ts cs : String) (vs vt vc : ℚ),
        windowIsOpen cfg gw = true →
        parseFloat sps = some vs → parseFloat ts = some vt →
        parseFloat cs = some vc →
        (vs ≠ cfg.setpoint_off →
          control_trv cfg gw sps ts cs
            = (Event.setCmd cfg.setpoint_off :: hysteresisEvents cfg vs vt vc, none))
        ∧ (vs = cfg.setpoint_off →
          control_trv cfg gw sps ts cs = ([Event.activate], none)))
    ∧ (∀ (cfg : Config) (gw : String → String) (sps ts cs : String),
        windowIsOpen cfg gw = true →
        cfg.setpoint_on ≠ cfg.setpoint_off →
        Event.setCmd cfg.setpoint_on ∉ (control_trv cfg gw sps ts cs).1)
    ∧ (∀ (cfg : Config) (st : HCState), st.active = true →
        on_window_change cfg st "off" = (st, [], none)) := by
  refine ⟨?_, ?_, ?_⟩
  · intro cfg gw sps ts cs vs vt vc hw h1 h2 h3
    constructor
    · intro hvs
      rw [control_trv_parsed cfg gw sps ts cs vs vt vc h1 h2 h3, if_pos hw,
        if_pos hvs]
    · intro hvs
      rw [control_trv_parsed cfg gw sps ts cs vs vt vc h1 h2 h3, if_pos hw,
        if_neg (by simp [hvs])]
  · intro cfg gw sps ts cs hw hne
    cases hp1 : parseFloat sps with
    | none => simp [control_trv, hp1]
    | some vs =>
      cases hp2 : parseFloat ts with
      | none => simp [control_trv, hp1, hp2]
      | some vt =>
        cases hp3 : parseFloat cs with
        | none => simp [control_trv, hp1, hp2, hp3]
        | some vc =>
          rw [control_trv_parsed cfg gw sps ts cs vs vt vc hp1 hp2 hp3, if_pos hw]
          by_cases hvs : vs = cfg.setpoint_off
          · rw [if_neg (by simp [hvs])]
            simp
          · rw [if_pos hvs]
            intro hmem
            rcases List.mem_cons.mp hmem with h | h
            · exact hne (Event.setCmd.inj h)
            · exact hysteresis_no_on cfg vs vt vc hvs hne h
  · intro cfg st h
    simp [on_window_change, h]

/-- Witness for C6 at concrete inputs: window open, device at mode on
(24), target 20, temperature 19 — the first command is `mode=off`, no
`mode=on` command appears in the trace, and a window-closed event does
nothing. -/
theorem C6_window_open_forces_off_witness :
    control_trv cfgHome gwOn "24" "20" "19"
      = (Event.setCmd cfgHome.setpoint_off :: hysteresisEvents cfgHome 24 20 19, none)
    ∧ Event.setCmd cfgHome.setpoint_on ∉ (control_trv cfgHome gwOn "24" "20" "19").1
    ∧ on_window_change cfgHome stStart "off" = (stStart, [], none) :=
  ⟨(C6_window_open_forces_off.1 cfgHome gwOn "24" "20" "19" 24 20 19
      (by decide) (by decide) (by decide) (by decide)).1 (by decide),
   C6_window_open_forces_off.2.1 cfgHome gwOn "24" "20" "19" (by decide) (by decide),
   C6_window_open_forces_off.2.2 cfgHome stStart rfl⟩

/-- C2: starting from a freshly issued command (`retry_count = 0`,
expected setpoint recorded) with every delayed check finding some device
out of tolerance or unreadable, the verification callback runs exactly
`max_retries` times — the code counts each failed check as one retry, so
`retry_count` reaches exactly `max_retries` when the failure notification
fires — then emits exactly one notification carrying the per-device
diagnostics of the last check (one entry per failed device, with expected
and last-seen values for out-of-tolerance devices) and reactivates the
listener; the whole chain contains no device command: retries re-poll
only and never resend. -/
theorem C2_retry_exhaustion (cfg : Config)
    (reads : Nat → String → String → Option ℚ) (exp : ℚ) (st : HCState)
    (hexp : st.expected_setpoint = some exp) (hrc : st.retry_count = 0)
    (hmax : 1 ≤ cfg.max_retries)
    (hfail : ∀ j, verifyDevices cfg exp (reads j) ≠ []) :
    countChecks (runVerify cfg reads cfg.max_retries 0 st).2 = cfg.max_retries
    ∧ countNotifies (runVerify cfg reads cfg.max_retries 0 st).2 = 1
    ∧ Event.notifySvc cfg.notifier cfg.location exp cfg.max_retries
        (verifyDevices cfg exp (reads (cfg.max_retries - 1)))
      ∈ (runVerify cfg reads cfg.max_retries 0 st).2
    ∧ countDeviceCmds (runVerify cfg reads cfg.max_retries 0 st).2 = 0
    ∧ (runVerify cfg reads cfg.max_retries 0 st).1.active = true
    ∧ (runVerify cfg reads cfg.max_retries 0 st).1.retry_count = cfg.max_retries := by
  have hrun := runVerify_all_fail cfg reads exp hfail cfg.max_retries 0 st hexp
    (by omega) hmax
  rw [hrun]
  refine ⟨countChecks_failTrace cfg exp reads cfg.max_retries 0,
    countNotifies_failTrace cfg exp reads cfg.max_retries 0 hmax, ?_,
    countDeviceCmds_failTrace cfg exp reads cfg.max_retries 0, rfl, rfl⟩
  have h := notify_mem_failTrace cfg exp reads cfg.max_retries 0 hmax
  simpa using h

/-- Witness for C2 at a concrete run: three configured retries, two
valves, every read failing — exactly 3 checks, one notification naming
both devices (with the diagnostics of check index 2), no device command,
listener reactivated with the retry counter at 3. -/
theorem C2_retry_exhaustion_witness :
    countChecks (runVerify cfgHome readsNone cfgHome.max_retries 0 stVerifyStart).2
      = cfgHome.max_retries
    ∧ countNotifies (runVerify cfgHome readsNone cfgHome.max_retries 0 stVerifyStart).2
      = 1
    ∧ Event.notifySvc cfgHome.notifier cfgHome.location 24 cfgHome.max_retries
        (verifyDevices cfgHome 24 (readsNone (cfgHome.max_retries - 1)))
      ∈ (runVerify cfgHome readsNone cfgHome.max_retries 0 stVerifyStart).2
    ∧ countDeviceCmds (runVerify cfgHome readsNone cfgHome.max_retries 0 stVerifyStart).2
      = 0
    ∧ (runVerify cfgHome readsNone cfgHome.max_retries 0 stVerifyStart).1.active = true
    ∧ (runVerify cfgHome readsNone cfgHome.max_retries 0 stVerifyStart).1.retry_count
      = cfgHome.max_retries :=
  C2_retry_exhaustion cfgHome readsNone 24 stVerifyStart rfl rfl (by decide)
    (fun j => by
      show verifyDevices cfgHome 24 (fun _ _ => none) ≠ []
      decide)

/-- C8 counterexample: controller active, device setpoint changes from
`"unavailable"` to `"21"` — the new value is neither mode, the guard
suspends, but then `float(old)` raises `ValueError`: NO corrective write
is issued (the claim demands exactly one, `setpoint_off` as fail-safe,
for every event whose new value is not a known mode). -/
theorem C8_counterexample :
    on_trv_setpoint_change cfgHome stStart "unavailable" "21"
      = ({ stStart with active := false }, [Event.suspendEv],
         some "ValueError: could not convert old to float") := by
  decide

/-- C8 amended: for every device-setpoint-change event observed while
active whose old and new values both parse as numbers and whose new
value is neither `setpointOn` nor `setpointOff`, the controller suspends
and issues exactly one corrective write — the previous value if that is
one of the two modes, otherwise `setpointOff` as a fail-safe (an
UNPARSEABLE previous value instead raises after the suspension, with no
write). -/
theorem C8_manual_override_amended (cfg : Config) (st : HCState)
    (old new : String) (n o : ℚ)
    (hact : st.active = true) (hn : parseFloat new = some n)
    (hnm : ¬ (n = cfg.setpoint_on ∨ n = cfg.setpoint_off))
    (ho : parseFloat old = some o) :
    on_trv_setpoint_change cfg st old new
      = ({ st with active := false },
         [Event.suspendEv,
          Event.setCmd (if o = cfg.setpoint_on ∨ o = cfg.setpoint_off
            then o else cfg.setpoint_off)],
         none) := by
  simp only [on_trv_setpoint_change, hact, hn, ho, Bool.not_true, Bool.false_eq_true,
    if_false, if_neg hnm]
  split_ifs with h <;> rfl

/-- Witness for C8 amended: active controller, old `"21"` (parseable but
no known mode), new `"22"` (not a mode) — suspension plus exactly one
corrective write, the `setpointOff` fail-safe. -/
theorem C8_manual_override_amended_witness :
    on_trv_setpoint_change cfgHome stStart "21" "22"
      = ({ stStart with active := false },
         [Event.suspendEv,
          Event.setCmd (if (21 : ℚ) = cfgHome.setpoint_on ∨ (21 : ℚ) = cfgHome.setpoint_off
            then (21 : ℚ) else cfgHome.setpoint_off)],
         none) :=
  C8_manual_override_amended cfgHome stStart "21" "22" 22 21 rfl (by decide)
    (by decide) (by decide)

/-- C9 counterexample: an active controller receiving a device-setpoint
change whose new value is `"unavailable"` — the handler raises
`ValueError` (`float(new)`, line 74) and the exception propagates out of
the handler, contradicting the claim that every handler contains
unparseable input. -/
theorem C9_counterexample :
    on_trv_setpoint_change cfgHome stStart "24" "unavailable"
      = (stStart, [], some "ValueError: could not convert new to float") := by
  decide

/-- C9 amended: only the temperature handler's literal `"unavailable"`
check is contained (logged, early return, state unchanged); the window
handler never raises; but an unparseable new value in the setpoint
handler, and an unparseable device setpoint in the commit logic, raise
`ValueError` that propagates out of the handler. -/
theorem C9_error_containment_amended :
    (∀ (cfg : Config) (st : HCState) (today : String)
        (nb : String → String → Bool) (gw : String → String)
        (reads2 : String → String → String),
        st.active = true →
        on_temperature_change cfg st today nb gw reads2 "unavailable"
          = (st, [], none))
    ∧ (∀ (cfg : Config) (st : HCState) (old new : String),
        st.active = true → parseFloat new = none →
        on_trv_setpoint_change cfg st old new
          = (st, [], some "ValueError: could not convert new to float"))
    ∧ (∀ (cfg : Config) (st : HCState) (new : String),
        (on_window_change cfg st new).2.2 = none)
    ∧ (∀ (cfg : Config) (gw : String → String) (sps ts cs : String),
        parseFloat sps = none →
        control_trv cfg gw sps ts cs
          = ([], some "ValueError: could not convert TRV setpoint to float")) := by
  refine ⟨?_, ?_, ?_, ?_⟩
  · intro cfg st today nb gw reads2 hact
    simp [on_temperature_change, hact]
  · intro cfg st old new hact hp
    simp [on_trv_setpoint_change, hact, hp]
  · intro cfg st new
    cases hst : st.active with
    | false => simp [on_window_change, hst]
    | true =>
      simp only [on_window_change, hst]
      split_ifs <;> rfl
  · intro cfg gw sps ts cs hp
    simp [control_trv, hp]

/-- Witness for C9 amended at concrete inputs: contained
temperature-unavailable event, propagating setpoint-handler
`ValueError`, never-raising window handler, propagating commit-logic
`ValueError`. -/
theorem C9_error_containment_amended_witness :
    on_temperature_change cfgHome stStart "mon" (fun _ _ => true) gwOff
        (fun _ _ => "24") "unavailable"
      = (stStart, [], none)
    ∧ on_trv_setpoint_change cfgHome stStart "24" "unavailable"
      = (stStart, [], some "ValueError: could not convert new to float")
    ∧ (on_window_change cfgHome stStart "weird").2.2 = none
    ∧ control_trv cfgHome gwOff "unavailable" "20" "19"
      = ([], some "ValueError: could not convert TRV setpoint to float") :=
  ⟨C9_error_containment_amended.1 cfgHome stStart "mon" (fun _ _ => true) gwOff
      (fun _ _ => "24") rfl,
   C9_error_containment_amended.2.1 cfgHome stStart "24" "unavailable" rfl (by decide),
   C9_error_containment_amended.2.2.1 cfgHome stStart "weird",
   C9_error_containment_amended.2.2.2 cfgHome gwOff "unavailable" "20" "19" (by decide)⟩

/-- C10: the commit logic's decision depends only on the setpoint read
from the FIRST configured device: `get_trv_setpoint` returns the first
entry's state, and replacing the remaining devices (and their states)
arbitrarily leaves the outcome of `control_trv` unchanged. -/
theorem C10_first_device_only (cfg : Config) (d : TrvCfg)
    (rest rest2 : List TrvCfg) (gw : String → String)
    (reads reads2 : String → String → String) (ts cs : String)
    (h : reads d.entity_id d.attr = reads2 d.entity_id d.attr) :
    get_trv_setpoint { cfg with trv_configs := d :: rest } reads
      = some (reads d.entity_id d.attr)
    ∧ control_trv_full { cfg with trv_configs := d :: rest } gw reads ts cs
      = control_trv_full { cfg with trv_configs := d :: rest2 } gw reads2 ts cs := by
  constructor
  · rfl
  · simp only [control_trv_full, get_trv_setpoint]
    rw [h]
    rfl

/-- Witness for C10: two different tails and a second read function that
agrees only on the first device — same outcome. -/
theorem C10_first_device_only_witness :
    get_trv_setpoint
        { cfgHome with trv_configs := [⟨"climate.trv_a", "temperature"⟩] }
        (fun _ _ => "24")
      = some "24"
    ∧ control_trv_full
        { cfgHome with trv_configs := [⟨"climate.trv_a", "temperature"⟩] }
        gwOff (fun _ _ => "24") "20" "19"
      = control_trv_full
          { cfgHome with
              trv_configs :=
                [⟨"climate.trv_a", "temperature"⟩, ⟨"climate.trv_b", "temperature"⟩] }
          gwOff (fun e _ => if e == "climate.trv_a" then "24" else "99") "20" "19" := by
  have h := C10_first_device_only cfgHome ⟨"climate.trv_a", "temperature"⟩ []
    [⟨"climate.trv_b", "temperature"⟩] gwOff (fun _ _ => "24")
    (fun e _ => if e == "climate.trv_a" then "24" else "99") "20" "19" (by decide)
  exact h

end HeatCtrl
